import Mathlib

/-!
Verification development for the device_controll trading-bot repository:
a shallow embedding of its alert classifier, alert router, and the
SmartVol partial-close strategy state machine, with theorems checking the
natural-language specification against the code.

Sources embedded:
- `src/unnamed/part_000` — `toAlert` classifier and `AlertsRouter`.
- `src/src/bot-core/strategies/smartvol.partial-close.strategy.ts` —
  `SmartVolPartialCloseStrategy`.
-/

namespace DeviceControll

/-! ## Alert classifier (`toAlert`, part_000 lines 15-89)

A payload is an untyped JS record.  We model only the fields `toAlert`
inspects.  `Option` models absence (JS `undefined`/`null`); JS falsiness
of a string (`!p.symbol`) is absence or the empty string. -/

structure Payload where
  alertName : Option String
  symbol : Option String
  price : Option String
  timeframe : Option String
  volume : Option ℚ
  deriving Repr, DecidableEq

/-- JS falsiness test for an optional string field: `!x` in the source. -/
def strFalsy : Option String → Bool
  | none => true
  | some s => s = ""

/-- The result object `toAlert` builds (part_000 lines 48-64, 79-85). -/
structure ClassifiedAlert where
  kind : String
  type : String
  symbol : String
  price : String
  timeframe : Option String
  volume : Option ℚ
  deriving Repr, DecidableEq

/-- Smartvol discriminator values (part_000 lines 26-37). -/
def smartVolTypes : List String :=
  ["SmartOpen", "SmartVolAdd", "SmartClose", "SmartBigClose",
   "SmartBigAdd", "SmartVolumeOpen", "BullishVolume", "VolumeUp"]

/-- Domination discriminator values (part_000 lines 68-75). -/
def dominationTypes : List String :=
  ["Buyer domination", "Seller domination",
   "Continuation of buyer dominance", "Continuation of seller dominance"]

/-- `toAlert` (part_000 lines 15-89): classify an untyped payload into a
typed alert or fail with a `BadRequestException`, modelled as `Except`.
Pure: the source performs no side effects. -/
def toAlert (p : Payload) : Except String ClassifiedAlert :=
  match p.alertName with
  | none => .error "Only SmartVol and Domination alerts are supported"
  | some type =>
    if smartVolTypes.contains type then
      if strFalsy p.symbol || p.price = none then
        .error "symbol and price are required"
      else if type = "VolumeUp" then
        if p.volume = none then
          .error "volume is required for VolumeUp alerts"
        else if strFalsy p.timeframe then
          .error "timeframe is required for VolumeUp alerts"
        else
          .ok { kind := "smartvol", type := type,
                symbol := p.symbol.getD "", price := p.price.getD "",
                timeframe := some (p.timeframe.getD ""),
                volume := p.volume }
      else
        .ok { kind := "smartvol", type := type,
              symbol := p.symbol.getD "", price := p.price.getD "",
              timeframe := p.timeframe, volume := none }
    else if dominationTypes.contains type then
      if strFalsy p.symbol || p.price = none then
        .error "symbol and price are required"
      else
        .ok { kind := "domination", type := type,
              symbol := p.symbol.getD "", price := p.price.getD "",
              timeframe := p.timeframe, volume := none }
    else
      .error ("Unknown alert type: " ++ type)

/-! ## Alert router (`AlertsRouter.handle`, part_000 lines 100-217)

The router fans an alert out to registered bots.  A bot's `process` /
domination handler is opaque to the router and may throw; we model each
bot's behaviour by a success flag per pathway.  Router activity is
recorded as a trace of events. -/

structure RBot where
  name : String
  /-- `bot.cfg.symbol_filter || []`. -/
  symbolFilter : List String
  /-- `bot.cfg.strategy`. -/
  strategy : String
  /-- Whether `bot.process(alert)` succeeds (false = it throws). -/
  processOk : Bool
  /-- Whether the bot's domination handler call succeeds (false = throws). -/
  domOk : Bool
  deriving Repr, DecidableEq

inductive REvent where
  /-- `bot.process(alert)` was invoked on this bot. -/
  | invoked (bot : String)
  /-- the router caught a bot failure and logged a warning. -/
  | warned (msg : String)
  | logged (msg : String)
  /-- one of the four domination handlers was invoked for this bot. -/
  | domInvoked (bot handler : String)
  deriving Repr, DecidableEq

/-- Eligibility in the general fan-out (part_000 lines 111-112): skip when
the symbol filter is non-empty and excludes the alert's symbol. -/
def passesFilter (b : RBot) (symbol : String) : Bool :=
  b.symbolFilter.isEmpty || b.symbolFilter.contains symbol

/-- The general fan-out loop (part_000 lines 110-118): each bot's
`process` runs inside try/catch; a failure is logged and the loop
continues with the remaining bots. -/
def fanOut (alert : ClassifiedAlert) : List RBot → List REvent
  | [] => []
  | b :: rest =>
    (if passesFilter b alert.symbol then
       REvent.invoked b.name ::
         (if b.processOk then [] else [.warned (b.name ++ " failed")])
     else [])
    ++ fanOut alert rest

/-- One domination handler call (part_000 lines 196-215 case arms):
succeeds or throws according to the bot's `domOk` flag. -/
def domDispatch (b : RBot) (handler : String) : Except String (List REvent) :=
  if b.domOk then .ok [.domInvoked b.name handler]
  else .error ("handler " ++ handler ++ " failed")

/-- `processDominationAlert` (part_000 lines 165-216) for one bot:
re-checks strategy tag and symbol filter, then dispatches on the exact
type string; the handler itself may throw (`domOk = false`), modelled by
the returned `Except`. -/
def processDominationAlert (b : RBot) (alert : ClassifiedAlert) :
    Except String (List REvent) :=
  if b.strategy ≠ "domination" then
    .ok [.warned ("bot " ++ b.name ++ " is not a domination bot")]
  else if ¬ (b.symbolFilter.isEmpty || b.symbolFilter.contains alert.symbol) then
    .ok [.logged ("bot " ++ b.name ++ " skips " ++ alert.symbol)]
  else
    if alert.type = "Buyer domination" then domDispatch b "onBuyerDomination"
    else if alert.type = "Seller domination" then domDispatch b "onSellerDomination"
    else if alert.type = "Continuation of buyer dominance" then
      domDispatch b "onBuyerContinuation"
    else if alert.type = "Continuation of seller dominance" then
      domDispatch b "onSellerContinuation"
    else .ok [.warned ("unknown domination type " ++ alert.type)]

/-- The per-bot loop of `handleDominationAlert` (part_000 lines 151-159):
`processDominationAlert` runs inside try/catch; a caught error is logged
and the loop continues with the remaining bots.  An `invoked` event
records that the router reached this bot. -/
def domLoop (alert : ClassifiedAlert) : List RBot → List REvent
  | [] => []
  | b :: rest =>
    (REvent.invoked b.name ::
      (match processDominationAlert b alert with
       | .ok evs => evs
       | .error e =>
         [.warned ("domination handling for " ++ b.name ++ " failed: " ++ e)]))
    ++ domLoop alert rest

/-- `handleDominationAlert` (part_000 lines 124-160): select bots tagged
`domination`; warn and stop if there are none; otherwise run the per-bot
loop. -/
def handleDominationAlert (bots : List RBot) (alert : ClassifiedAlert) :
    List REvent :=
  let domBots := bots.filter fun b => b.strategy = "domination"
  if domBots.isEmpty then
    [.warned "no domination bots"]
  else
    domLoop alert domBots

/-- `AlertsRouter.handle` (part_000 lines 100-119): classify, then route.
A classification failure propagates to the caller; per-bot failures do
not. -/
def routerHandle (bots : List RBot) (p : Payload) :
    Except String (List REvent) := do
  let alert ← toAlert p
  if alert.kind = "domination" then
    return handleDominationAlert bots alert
  else
    return fanOut alert bots

/-! ## Strategy state machine
(`SmartVolPartialCloseStrategy`, smartvol.partial-close.strategy.ts)

The strategy is stateful: two in-memory maps keyed by the string
`botName:symbol`, plus the external positions store, which we carry in
the same state record.  JS `Map` operations become association-list
operations; `Date.now()` becomes an explicit `now : Nat` (milliseconds);
JS numbers become `ℚ`.  Each handler returns the new state, a trace of
observable effects, and `err = some _` when it throws. -/

/-- Association-list get, modelling `Map.get`. -/
def getEntry {α β : Type} [DecidableEq α] (k : α) : List (α × β) → Option β
  | [] => none
  | (k', v) :: rest => if k = k' then some v else getEntry k rest

/-- Association-list set, modelling `Map.set` (replace or insert). -/
def setEntry {α β : Type} [DecidableEq α] (k : α) (v : β) :
    List (α × β) → List (α × β)
  | [] => [(k, v)]
  | (k', v') :: rest =>
    if k = k' then (k, v) :: rest else (k', v') :: setEntry k v rest

/-- Association-list delete, modelling `Map.delete`. -/
def delEntry {α β : Type} [DecidableEq α] (k : α) :
    List (α × β) → List (α × β)
  | [] => []
  | (k', v') :: rest =>
    if k = k' then rest else (k', v') :: delEntry k rest

/-- Strategy-level alert as the handlers consume it: `symbol`, numeric
`price` (the source parses the string with `Number`/`parseFloat`), and an
optional `timeframe`. -/
structure SAlert where
  symbol : String
  price : ℚ
  timeframe : Option String
  deriving Repr, DecidableEq

/-- `alert.timeframe || '1h'` (strategy lines 131, 305, 494, 518): JS
`||` falls through on `undefined` and on the empty string. -/
def tfOrDefault : Option String → String
  | none => "1h"
  | some t => if t = "" then "1h" else t

/-- An open position as held by the external store
(spec §3: `{fillsCount, avgEntryPrice, amountUsd, isOpen}`). -/
structure Position where
  id : Nat
  fillsCount : Nat
  avgEntryPrice : ℚ
  amountUsd : ℚ
  deriving Repr, DecidableEq

/-- `PartialCloseState` (strategy lines 8-13). -/
structure PartialCloseState where
  symbol : String
  botName : String
  smartVolCloseCount : Nat
  lastUpdate : Nat
  deriving Repr, DecidableEq

/-- `EntryBlockState` (strategy lines 16-20). -/
structure EntryBlockState where
  symbol : String
  botName : String
  blockedUntil : Nat
  deriving Repr, DecidableEq

/-- Full mutable state a strategy instance touches: its two in-memory
maps (strategy lines 26, 29) and the external store's open positions,
keyed by (botName, symbol). -/
structure StratState where
  partialCloseStates : List (String × PartialCloseState)
  entryBlockStates : List (String × EntryBlockState)
  store : List ((String × String) × Position)
  nextId : Nat
  deriving Repr, DecidableEq

structure BotCfg where
  maxFills : Option Nat
  leverage : ℚ
  deriving Repr, DecidableEq

/-- The bot object as the strategy consumes it.  `baseUsd`/`addUsd` are
`none` when the configured value is undefined/NaN (the source guards
`!x || isNaN(x)`; a configured `0` is also falsy, modelled by `some 0`).
`calcSizeFromUsd` is the external sizing oracle. -/
structure SBot where
  name : String
  cfg : BotCfg
  baseUsd : Option ℚ
  addUsd : Option ℚ
  hasIsAllowed : Bool
  isAllowed : String → Bool
  calcSizeFromUsd : String → ℚ → ℚ → ℚ

/-- `!x || isNaN(x)` on a USD amount (strategy lines 191, 246). -/
def usdFalsy : Option ℚ → Bool
  | none => true
  | some q => q = 0

/-- Whether the exchange calls succeed on this run (a throwing call
models the awaited promise rejecting). -/
structure ExchangeBeh where
  placeMarketOk : Bool
  flashCloseOk : Bool
  deriving Repr, DecidableEq

/-- Observable effects a handler performs, in order. -/
inductive Effect where
  | log (msg : String)
  | notify (msg : String)
  | ensureLeverage (symbolId : String) (lev : ℚ)
  | calcSize (symbolId : String) (price usd : ℚ)
  | placeMarket (symbolId side : String) (size : ℚ) (clientOrderId : String)
  | flashClose (symbol side : String)
  | findOpen (bot symbol : String)
  | storeOpen (bot symbol : String) (price usd : ℚ)
  | storeAdd (bot symbol : String) (price usd : ℚ)
  | storeClose (bot symbol : String) (price : ℚ)
  deriving Repr, DecidableEq

/-- Exchange order placements (market orders and flash closes). -/
def Effect.isOrder : Effect → Bool
  | .placeMarket _ _ _ _ => true
  | .flashClose _ _ => true
  | _ => false

/-- Position-store mutations. -/
def Effect.isStoreMutation : Effect → Bool
  | .storeOpen _ _ _ _ => true
  | .storeAdd _ _ _ _ => true
  | .storeClose _ _ _ => true
  | _ => false

/-- Position-store reads (`findOpen`). -/
def Effect.isStoreRead : Effect → Bool
  | .findOpen _ _ => true
  | _ => false

def Effect.isNotify : Effect → Bool
  | .notify _ => true
  | _ => false

/-- Result of one handler invocation: `err = some _` iff the handler
threw (the exception then propagates to the router). -/
structure Res where
  err : Option String
  state : StratState
  trace : List Effect

/-- `getStateKey` (strategy lines 37-39). -/
def getStateKey (botName symbol : String) : String :=
  botName ++ ":" ++ symbol

/-- `getOrCreateState` (strategy lines 42-57). -/
def getOrCreateState (now : Nat) (botName symbol : String) (s : StratState) :
    PartialCloseState × StratState :=
  let key := getStateKey botName symbol
  match getEntry key s.partialCloseStates with
  | some st => (st, s)
  | none =>
    let st : PartialCloseState :=
      { symbol := symbol, botName := botName,
        smartVolCloseCount := 0, lastUpdate := now }
    (st, { s with partialCloseStates := setEntry key st s.partialCloseStates })

/-- Write back a mutated `PartialCloseState` (the source mutates the
object held in the map in place). -/
def setPartialState (botName symbol : String) (st : PartialCloseState)
    (s : StratState) : StratState :=
  { s with partialCloseStates :=
      setEntry (getStateKey botName symbol) st s.partialCloseStates }

/-- `clearState` (strategy lines 60-63). -/
def clearState (botName symbol : String) (s : StratState) : StratState :=
  { s with partialCloseStates :=
      delEntry (getStateKey botName symbol) s.partialCloseStates }

/-- `isEntryBlocked` (strategy lines 66-80); deletes an expired entry as
a side effect of the read. -/
def isEntryBlocked (now : Nat) (botName symbol : String) (s : StratState) :
    Bool × StratState :=
  let key := getStateKey botName symbol
  match getEntry key s.entryBlockStates with
  | none => (false, s)
  | some b =>
    if b.blockedUntil ≤ now then
      (false, { s with entryBlockStates := delEntry key s.entryBlockStates })
    else
      (true, s)

/-- `blockEntry` (strategy lines 83-96): block for one hour
(60 × 60 × 1000 ms). -/
def blockEntry (now : Nat) (botName symbol : String) (s : StratState) :
    StratState :=
  let b : EntryBlockState :=
    { symbol := symbol, botName := botName,
      blockedUntil := now + 60 * 60 * 1000 }
  { s with entryBlockStates :=
      setEntry (getStateKey botName symbol) b s.entryBlockStates }

/-- Modelled from the spec: `toBitgetSymbolId` lives in `bot-core/utils`,
which is not part of the provided sources; the spec treats the exchange
symbol-id mapping as opaque, so we model it as the identity. -/
def toBitgetSymbolId (symbol : String) : String := symbol

/-- Modelled from the spec: `PositionsStore.findOpen` (the store's
internals are out of scope; §6 gives the call contract
`findOpen(bot, symbol) -> Position|absent`). -/
def storeFindOpen (s : StratState) (bot symbol : String) : Option Position :=
  getEntry (bot, symbol) s.store

/-- Modelled from the spec: `PositionsStore.open` creates a one-fill
position at the alert price for the given USD amount. -/
def storeOpenOp (s : StratState) (bot symbol : String) (price usd : ℚ) :
    Position × StratState :=
  let pos : Position :=
    { id := s.nextId, fillsCount := 1, avgEntryPrice := price, amountUsd := usd }
  (pos, { s with store := setEntry (bot, symbol) pos s.store,
                 nextId := s.nextId + 1 })

/-- Modelled from the spec: `PositionsStore.add` records one more fill,
accumulating notional and re-averaging the entry price. -/
def storeAddOp (s : StratState) (bot symbol : String) (pos : Position)
    (price usd : ℚ) : StratState :=
  let newAmount := pos.amountUsd + usd
  let newAvg := (pos.avgEntryPrice * pos.amountUsd + price * usd) / newAmount
  let pos' : Position :=
    { pos with fillsCount := pos.fillsCount + 1,
               avgEntryPrice := newAvg, amountUsd := newAmount }
  { s with store := setEntry (bot, symbol) pos' s.store }

/-- Modelled from the spec: `PositionsStore.close` marks the position
closed, removing it from the open set. -/
def storeCloseOp (s : StratState) (bot symbol : String) : StratState :=
  { s with store := delEntry (bot, symbol) s.store }

/-- JS `Number.prototype.toFixed(8)` on a non-negative value, in exact
rational arithmetic: round to the nearest multiple of 10⁻⁸. -/
def toFixed8 (q : ℚ) : ℚ :=
  ((⌊q * 100000000 + 1 / 2⌋ : ℤ) : ℚ) / 100000000

/-- `onAdd` (strategy lines 229-289). -/
def onAdd (now : Nat) (beh : ExchangeBeh) (bot : SBot) (alert : SAlert)
    (s : StratState) : Res :=
  let t := [Effect.log ("onAdd " ++ alert.symbol),
            Effect.findOpen bot.name alert.symbol]
  match storeFindOpen s bot.name alert.symbol with
  | none =>
    { err := none, state := s,
      trace := t ++ [.log ("position " ++ alert.symbol ++ " not found, skipping add")] }
  | some existing =>
    if existing.fillsCount ≥ bot.cfg.maxFills.getD 4 then
      { err := none, state := s,
        trace := t ++ [.notify (bot.name ++ ": max fills reached for " ++ alert.symbol)] }
    else if usdFalsy bot.addUsd then
      { err := none, state := s,
        trace := t ++ [.log "addUsd undefined or NaN",
                       .notify (bot.name ++ ": configuration error - addUsd undefined")] }
    else
      let addUsd := bot.addUsd.getD 0
      let symbolId := toBitgetSymbolId alert.symbol
      let size := bot.calcSizeFromUsd symbolId alert.price addUsd
      let t := t ++ [.calcSize symbolId alert.price addUsd,
                     .placeMarket symbolId "buy" size
                       (bot.name ++ "-add-" ++ toString now)]
      if ¬ beh.placeMarketOk then
        { err := some "placeMarket failed", state := s, trace := t }
      else
        let s' := storeAddOp s bot.name alert.symbol existing alert.price addUsd
        let t := t ++ [.storeAdd bot.name alert.symbol alert.price addUsd,
                       .findOpen bot.name alert.symbol]
        { err := none, state := s',
          trace := t ++ [.notify (bot.name ++ ": ADD " ++ alert.symbol)] }

/-- `onOpen` (strategy lines 115-227). -/
def onOpen (now : Nat) (beh : ExchangeBeh) (bot : SBot) (alert : SAlert)
    (s : StratState) : Res :=
  let t := [Effect.log ("onOpen " ++ alert.symbol)]
  let blockedRes := isEntryBlocked now bot.name alert.symbol s
  if blockedRes.1 then
    { err := none, state := blockedRes.2,
      trace := t ++ [.log ("entry blocked for " ++ alert.symbol),
                     .notify (bot.name ++ ": entry blocked for " ++ alert.symbol)] }
  else
    let s := blockedRes.2
    let timeframe := tfOrDefault alert.timeframe
    if timeframe ≠ "1h" then
      { err := none, state := s,
        trace := t ++ [.log ("SmartOpen with timeframe " ++ timeframe ++ " - skipping"),
                       .notify (bot.name ++ ": SmartOpen with timeframe " ++ timeframe
                                ++ " skipped - need timeframe 1h to open a position")] }
    else
      let t := t ++ [.findOpen bot.name alert.symbol]
      match storeFindOpen s bot.name alert.symbol with
      | some existing =>
        if existing.fillsCount ≥ bot.cfg.maxFills.getD 4 then
          { err := none, state := s,
            trace := t ++ [.log "max fills reached",
                           .notify (bot.name ++ ": max fills reached for " ++ alert.symbol)] }
        else
          let r := onAdd now beh bot alert s
          { r with trace := t ++ r.trace }
      | none =>
        let symbolId := toBitgetSymbolId alert.symbol
        if bot.hasIsAllowed && ¬ bot.isAllowed symbolId then
          { err := none, state := s,
            trace := t ++ [.log (symbolId ++ " not allowed"),
                           .notify (bot.name ++ ": " ++ symbolId ++ " not allowed")] }
        else
          let size := bot.calcSizeFromUsd symbolId alert.price (bot.baseUsd.getD 0)
          let t := t ++ [.ensureLeverage symbolId bot.cfg.leverage,
                         .calcSize symbolId alert.price (bot.baseUsd.getD 0),
                         .placeMarket symbolId "buy" size
                           (bot.name ++ "-open-" ++ toString now)]
          if ¬ beh.placeMarketOk then
            { err := some "placeMarket failed", state := s, trace := t }
          else if usdFalsy bot.baseUsd then
            { err := none, state := s,
              trace := t ++ [.log "baseUsd undefined or NaN",
                             .notify (bot.name ++ ": configuration error - baseUsd undefined")] }
          else
            let baseUsd := bot.baseUsd.getD 0
            let openRes := storeOpenOp s bot.name alert.symbol alert.price baseUsd
            let t := t ++ [.storeOpen bot.name alert.symbol alert.price baseUsd]
            let stateRes := getOrCreateState now bot.name alert.symbol openRes.2
            { err := none, state := stateRes.2,
              trace := t ++ [.notify (bot.name ++ ": OPEN " ++ alert.symbol)] }

/-- `onClose` (strategy lines 291-418). -/
def onClose (now : Nat) (beh : ExchangeBeh) (bot : SBot) (alert : SAlert)
    (s : StratState) : Res :=
  let t := [Effect.log ("SmartClose " ++ tfOrDefault alert.timeframe
                        ++ " for " ++ alert.symbol),
            Effect.findOpen bot.name alert.symbol]
  match storeFindOpen s bot.name alert.symbol with
  | none =>
    { err := none, state := s,
      trace := t ++ [.log ("position " ++ alert.symbol ++ " not found, skipping close")] }
  | some existing =>
    let timeframe := tfOrDefault alert.timeframe
    if timeframe = "4h" then
      let t := t ++ [.log ("4h SmartClose - closing whole position " ++ alert.symbol),
                     .flashClose alert.symbol "long"]
      if ¬ beh.flashCloseOk then
        { err := some "flashClose failed", state := s,
          trace := t ++ [.log ("error closing position " ++ alert.symbol)] }
      else
        let s' := clearState bot.name alert.symbol (storeCloseOp s bot.name alert.symbol)
        { err := none, state := s',
          trace := t ++ [.storeClose bot.name alert.symbol alert.price,
                         .notify (bot.name ++ ": CLOSE 4h " ++ alert.symbol)] }
    else
      let stRes := getOrCreateState now bot.name alert.symbol s
      let st := stRes.1
      let s := stRes.2
      let currentCount := st.smartVolCloseCount
      if currentCount = 0 then
        let s' := setPartialState bot.name alert.symbol
          { st with smartVolCloseCount := 1, lastUpdate := now } s
        { err := none, state := s',
          trace := t ++ [.log ("first SmartClose for " ++ alert.symbol),
                         .notify (bot.name ++ ": first SmartClose for " ++ alert.symbol
                                  ++ " - waiting for second signal")] }
      else if currentCount = 1 then
        let currentSize := existing.amountUsd
        let closeSize := currentSize * (1 / 2)
        let avgPrice := existing.avgEntryPrice
        let closeTokens := closeSize / avgPrice
        let t := t ++ [.log ("second SmartClose for " ++ alert.symbol ++ " - closing 50%"),
                       .placeMarket (toBitgetSymbolId alert.symbol) "sell"
                         (toFixed8 closeTokens)
                         (bot.name ++ "-partial-close-" ++ toString now)]
        if ¬ beh.placeMarketOk then
          { err := some "placeMarket failed", state := s,
            trace := t ++ [.log ("error partially closing position " ++ alert.symbol)] }
        else
          let s' := setPartialState bot.name alert.symbol
            { st with smartVolCloseCount := 2, lastUpdate := now } s
          { err := none, state := s',
            trace := t ++ [.notify (bot.name ++ ": partial close 50% " ++ alert.symbol)] }
      else
        let t := t ++ [.log ("final SmartClose for " ++ alert.symbol),
                       .flashClose alert.symbol "long"]
        if ¬ beh.flashCloseOk then
          { err := some "flashClose failed", state := s,
            trace := t ++ [.log ("error closing position " ++ alert.symbol)] }
        else
          let s' := clearState bot.name alert.symbol (storeCloseOp s bot.name alert.symbol)
          { err := none, state := s',
            trace := t ++ [.storeClose bot.name alert.symbol alert.price,
                           .notify (bot.name ++ ": final close " ++ alert.symbol)] }

/-- `onBigClose` (strategy lines 420-454). -/
def onBigClose (now : Nat) (beh : ExchangeBeh) (bot : SBot) (alert : SAlert)
    (s : StratState) : Res :=
  let t := [Effect.log ("SmartBigClose for " ++ alert.symbol),
            Effect.findOpen bot.name alert.symbol]
  match storeFindOpen s bot.name alert.symbol with
  | none =>
    { err := none, state := s,
      trace := t ++ [.log ("position " ++ alert.symbol ++ " not found, skipping close")] }
  | some _ =>
    let t := t ++ [.flashClose alert.symbol "long"]
    if ¬ beh.flashCloseOk then
      { err := some "flashClose failed", state := s,
        trace := t ++ [.log ("error emergency-closing position " ++ alert.symbol)] }
    else
      let s' := clearState bot.name alert.symbol (storeCloseOp s bot.name alert.symbol)
      { err := none, state := s',
        trace := t ++ [.storeClose bot.name alert.symbol alert.price,
                       .notify (bot.name ++ ": BIG CLOSE " ++ alert.symbol)] }

/-- `onFixedShortSynchronization` (strategy lines 488-510). -/
def onFixedShortSynchronization (now : Nat) (bot : SBot) (alert : SAlert)
    (s : StratState) : Res :=
  let t := [Effect.log ("Fixed Short Synchronization for " ++ alert.symbol)]
  let timeframe := tfOrDefault alert.timeframe
  if timeframe ≠ "1h" then
    { err := none, state := s,
      trace := t ++ [.log ("Fixed Short Synchronization with timeframe "
                           ++ timeframe ++ " - skipping")] }
  else
    let s' := blockEntry now bot.name alert.symbol s
    { err := none, state := s',
      trace := t ++ [.log "entry blocked for 1 hour",
                     .notify (bot.name ++ ": Fixed Short Synchronization for "
                              ++ alert.symbol ++ " - entry blocked for 1 hour")] }

/-- `onLiveShortSynchronization` (strategy lines 512-534). -/
def onLiveShortSynchronization (now : Nat) (bot : SBot) (alert : SAlert)
    (s : StratState) : Res :=
  let t := [Effect.log ("Live Short Synchronization for " ++ alert.symbol)]
  let timeframe := tfOrDefault alert.timeframe
  if timeframe ≠ "1h" then
    { err := none, state := s,
      trace := t ++ [.log ("Live Short Synchronization with timeframe "
                           ++ timeframe ++ " - skipping")] }
  else
    let s' := blockEntry now bot.name alert.symbol s
    { err := none, state := s',
      trace := t ++ [.log "entry blocked for 1 hour",
                     .notify (bot.name ++ ": Live Short Synchronization for "
                              ++ alert.symbol ++ " - entry blocked for 1 hour")] }

/-! ## Trace predicates and helper lemmas -/

/-- Scans a trace: `true` iff no position-store mutation occurs before an
exchange order call (so every store mutation is preceded by an order). -/
def noStoreMutationBeforeOrder : List Effect → Bool
  | [] => true
  | e :: rest =>
    if e.isStoreMutation then false
    else if e.isOrder then true
    else noStoreMutationBeforeOrder rest

theorem getEntry_setEntry_self {α β : Type} [DecidableEq α] (k : α) (v : β)
    (l : List (α × β)) : getEntry k (setEntry k v l) = some v := by
  induction l with
  | nil => simp [getEntry, setEntry]
  | cons hd tl ih =>
    by_cases h : k = hd.1
    · simp [getEntry, setEntry, h]
    · simp [getEntry, setEntry, h, ih]

theorem setEntry_setEntry {α β : Type} [DecidableEq α] (k : α) (v v' : β)
    (l : List (α × β)) : setEntry k v' (setEntry k v l) = setEntry k v' l := by
  induction l with
  | nil => simp [setEntry]
  | cons hd tl ih =>
    by_cases h : k = hd.1
    · simp [setEntry, h]
    · simp [setEntry, h, ih]

theorem delEntry_setEntry_of_getEntry_none {α β : Type} [DecidableEq α]
    (k : α) (v : β) (l : List (α × β)) (h : getEntry k l = none) :
    delEntry k (setEntry k v l) = l := by
  induction l with
  | nil => simp [setEntry, delEntry]
  | cons hd tl ih =>
    by_cases hk : k = hd.1
    · simp [getEntry, hk] at h
    · simp [getEntry, hk] at h
      simp [setEntry, delEntry, hk, ih h]

/-! ## Shared concrete fixtures, used by witnesses and counterexamples -/

def demoBot : SBot :=
  { name := "b1", cfg := { maxFills := some 4, leverage := 10 },
    baseUsd := some 100, addUsd := some 50,
    hasIsAllowed := true, isAllowed := fun _ => true,
    calcSizeFromUsd := fun _ price usd => usd / price }

def okBeh : ExchangeBeh := { placeMarketOk := true, flashCloseOk := true }

def badBeh : ExchangeBeh := { placeMarketOk := false, flashCloseOk := false }

/-- Empty strategy state (fresh instance with an empty store). -/
def s0 : StratState :=
  { partialCloseStates := [], entryBlockStates := [], store := [], nextId := 0 }

/-- A one-fill open position whose 50%-notional token amount
(amountUsd × 0.5) / avgEntryPrice = 1/6 has no finite 8-decimal form. -/
def demoPos : Position :=
  { id := 0, fillsCount := 1, avgEntryPrice := 3, amountUsd := 1 }

/-- State holding `demoPos` open for (b1, BTCUSDT), fresh partial-close
state. -/
def sPos : StratState :=
  { partialCloseStates := [], entryBlockStates := [],
    store := [(("b1", "BTCUSDT"), demoPos)], nextId := 1 }

/-- Same, but the partial-close automaton already counted one
`SmartClose`. -/
def sPos1 : StratState :=
  { sPos with partialCloseStates :=
      [("b1:BTCUSDT",
        { symbol := "BTCUSDT", botName := "b1",
          smartVolCloseCount := 1, lastUpdate := 500 })] }

/-- A position already at `maxFills = 4`. -/
def demoPosMax : Position :=
  { id := 0, fillsCount := 4, avgEntryPrice := 3, amountUsd := 4 }

def sPosMax : StratState :=
  { partialCloseStates := [], entryBlockStates := [],
    store := [(("b1", "BTCUSDT"), demoPosMax)], nextId := 1 }

def demoAlert1h : SAlert := { symbol := "BTCUSDT", price := 5, timeframe := some "1h" }

def demoAlert4h : SAlert := { symbol := "BTCUSDT", price := 5, timeframe := some "4h" }

def demoAlertNoTf : SAlert := { symbol := "BTCUSDT", price := 5, timeframe := none }

def demoBlock : EntryBlockState :=
  { symbol := "BTCUSDT", botName := "b1", blockedUntil := 3601000 }

/-- State with an active entry block for (b1, BTCUSDT). -/
def sBlocked : StratState :=
  { partialCloseStates := [], entryBlockStates := [("b1:BTCUSDT", demoBlock)],
    store := [], nextId := 0 }

/-! ## Behaviour of `onOpen` while entry-blocked (shared lemma) -/

/-- While the entry block is active (`now < blockedUntil`), `onOpen`
returns right after the block notification. -/
theorem onOpen_blocked (now : Nat) (beh : ExchangeBeh) (bot : SBot)
    (alert : SAlert) (s : StratState) (b : EntryBlockState)
    (hb : getEntry (getStateKey bot.name alert.symbol) s.entryBlockStates = some b)
    (hlt : now < b.blockedUntil) :
    onOpen now beh bot alert s =
      { err := none, state := s,
        trace := [.log ("onOpen " ++ alert.symbol),
                  .log ("entry blocked for " ++ alert.symbol),
                  .notify (bot.name ++ ": entry blocked for " ++ alert.symbol)] } := by
  unfold onOpen isEntryBlocked
  simp [hb, Nat.not_le.mpr hlt]

/-! ## Claim theorems -/

/-- C10: the entry-block check in `onOpen` runs before the
existing-position lookup: a `SmartOpen` received while the (bot,symbol)
key is entry-blocked returns after the block notification without
reading the store, without placing any order, and without mutating any
state — blocking also suppresses `SmartOpen`-triggered adds. -/
theorem C10_blocked_open_no_store_read (now : Nat) (beh : ExchangeBeh)
    (bot : SBot) (alert : SAlert) (s : StratState) (b : EntryBlockState)
    (hb : getEntry (getStateKey bot.name alert.symbol) s.entryBlockStates = some b)
    (hlt : now < b.blockedUntil) :
    (onOpen now beh bot alert s).err = none ∧
    (onOpen now beh bot alert s).state = s ∧
    (∀ e ∈ (onOpen now beh bot alert s).trace,
      e.isStoreRead = false ∧ e.isOrder = false ∧ e.isStoreMutation = false) ∧
    (∃ e ∈ (onOpen now beh bot alert s).trace, e.isNotify = true) := by
  rw [onOpen_blocked now beh bot alert s b hb hlt]
  simp [Effect.isStoreRead, Effect.isOrder, Effect.isStoreMutation, Effect.isNotify]

theorem C10_witness :
    (onOpen 2000 okBeh demoBot demoAlert1h sBlocked).err = none ∧
    (onOpen 2000 okBeh demoBot demoAlert1h sBlocked).state = sBlocked ∧
    (∀ e ∈ (onOpen 2000 okBeh demoBot demoAlert1h sBlocked).trace,
      e.isStoreRead = false ∧ e.isOrder = false ∧ e.isStoreMutation = false) ∧
    (∃ e ∈ (onOpen 2000 okBeh demoBot demoAlert1h sBlocked).trace, e.isNotify = true) :=
  C10_blocked_open_no_store_read 2000 okBeh demoBot demoAlert1h sBlocked demoBlock
    (by decide) (by decide)

/-- C8: an Add, Close, or BigClose alert with no open position for the
(bot,symbol) key is a logged no-op: no exception, no order, no store
mutation, and no state change at all. -/
theorem C8_missing_position_noop (now : Nat) (beh : ExchangeBeh) (bot : SBot)
    (alert : SAlert) (s : StratState)
    (h : storeFindOpen s bot.name alert.symbol = none) :
    ((onAdd now beh bot alert s).err = none ∧
     (onAdd now beh bot alert s).state = s ∧
     (∀ e ∈ (onAdd now beh bot alert s).trace,
       e.isOrder = false ∧ e.isStoreMutation = false)) ∧
    ((onClose now beh bot alert s).err = none ∧
     (onClose now beh bot alert s).state = s ∧
     (∀ e ∈ (onClose now beh bot alert s).trace,
       e.isOrder = false ∧ e.isStoreMutation = false)) ∧
    ((onBigClose now beh bot alert s).err = none ∧
     (onBigClose now beh bot alert s).state = s ∧
     (∀ e ∈ (onBigClose now beh bot alert s).trace,
       e.isOrder = false ∧ e.isStoreMutation = false)) := by
  unfold onAdd onClose onBigClose
  simp [h, Effect.isOrder, Effect.isStoreMutation]

theorem C8_witness :
    ((onAdd 1000 okBeh demoBot demoAlert1h s0).err = none ∧
     (onAdd 1000 okBeh demoBot demoAlert1h s0).state = s0 ∧
     (∀ e ∈ (onAdd 1000 okBeh demoBot demoAlert1h s0).trace,
       e.isOrder = false ∧ e.isStoreMutation = false)) ∧
    ((onClose 1000 okBeh demoBot demoAlert1h s0).err = none ∧
     (onClose 1000 okBeh demoBot demoAlert1h s0).state = s0 ∧
     (∀ e ∈ (onClose 1000 okBeh demoBot demoAlert1h s0).trace,
       e.isOrder = false ∧ e.isStoreMutation = false)) ∧
    ((onBigClose 1000 okBeh demoBot demoAlert1h s0).err = none ∧
     (onBigClose 1000 okBeh demoBot demoAlert1h s0).state = s0 ∧
     (∀ e ∈ (onBigClose 1000 okBeh demoBot demoAlert1h s0).trace,
       e.isOrder = false ∧ e.isStoreMutation = false)) :=
  C8_missing_position_noop 1000 okBeh demoBot demoAlert1h s0 (by decide)

/-- C6 as stated is false: a `SmartOpen` with timeframe "4h" (≠ "1h")
and no open position IS answered with a notification — here the trace
contains a notify effect, contradicting "no notification is sent". -/
theorem C6_counterexample :
    demoAlert4h.timeframe = some "4h" ∧
    storeFindOpen s0 demoBot.name demoAlert4h.symbol = none ∧
    (onOpen 1000 okBeh demoBot demoAlert4h s0).state = s0 ∧
    (∀ e ∈ (onOpen 1000 okBeh demoBot demoAlert4h s0).trace,
      e.isOrder = false ∧ e.isStoreMutation = false) ∧
    (∃ e ∈ (onOpen 1000 okBeh demoBot demoAlert4h s0).trace, e.isNotify = true) := by
  decide

/-- C6 amended: a `SmartOpen` whose timeframe is present, non-empty and
≠ "1h", received while not entry-blocked, causes no state transition, no
order placement and no store access — but a notification explaining the
skip IS sent. -/
theorem C6_wrong_timeframe_skipped (now : Nat) (beh : ExchangeBeh) (bot : SBot)
    (alert : SAlert) (s : StratState) (t : String)
    (ht : alert.timeframe = some t) (h1 : t ≠ "1h") (h2 : t ≠ "")
    (hb : getEntry (getStateKey bot.name alert.symbol) s.entryBlockStates = none)
    (hpos : storeFindOpen s bot.name alert.symbol = none) :
    (onOpen now beh bot alert s).err = none ∧
    (onOpen now beh bot alert s).state = s ∧
    (∀ e ∈ (onOpen now beh bot alert s).trace,
      e.isOrder = false ∧ e.isStoreMutation = false ∧ e.isStoreRead = false) ∧
    (∃ e ∈ (onOpen now beh bot alert s).trace, e.isNotify = true) := by
  unfold onOpen isEntryBlocked
  simp [hb, tfOrDefault, ht, h1, h2,
        Effect.isOrder, Effect.isStoreMutation, Effect.isStoreRead, Effect.isNotify]

theorem C6_witness :
    demoAlert4h.timeframe = some "4h" ∧ "4h" ≠ "1h" ∧ "4h" ≠ "" ∧
    ((onOpen 1000 okBeh demoBot demoAlert4h s0).err = none ∧
     (onOpen 1000 okBeh demoBot demoAlert4h s0).state = s0 ∧
     (∀ e ∈ (onOpen 1000 okBeh demoBot demoAlert4h s0).trace,
       e.isOrder = false ∧ e.isStoreMutation = false ∧ e.isStoreRead = false) ∧
     (∃ e ∈ (onOpen 1000 okBeh demoBot demoAlert4h s0).trace, e.isNotify = true)) :=
  ⟨by decide, by decide, by decide,
   C6_wrong_timeframe_skipped 1000 okBeh demoBot demoAlert4h s0 "4h"
     (by decide) (by decide) (by decide) (by decide) (by decide)⟩

/-- C7 as stated is false: a `SmartOpen` with timeframe "4h" arriving
while the open position sits at `maxFills` is rejected by the timeframe
guard first, so no "max fills reached" notification is sent (the claim
demands one for every such alert). -/
theorem C7_counterexample :
    demoBot.cfg.maxFills.getD 4 ≤ demoPosMax.fillsCount ∧
    storeFindOpen sPosMax demoBot.name demoAlert4h.symbol = some demoPosMax ∧
    (∀ e ∈ (onOpen 1000 okBeh demoBot demoAlert4h sPosMax).trace,
      e ≠ .notify ("b1: max fills reached for BTCUSDT")) := by
  decide

/-- C7 amended: a `SmartVolAdd` with the position at or beyond
`maxFills`, and a `SmartOpen` that additionally passes the entry-block
and timeframe guards, place no order, leave the store (hence
`fillsCount` and every other position field) and all strategy state
unchanged, and send a "max fills reached" notification. -/
theorem C7_max_fills_no_order (now : Nat) (beh : ExchangeBeh) (bot : SBot)
    (alert : SAlert) (s : StratState) (pos : Position)
    (hpos : storeFindOpen s bot.name alert.symbol = some pos)
    (hge : bot.cfg.maxFills.getD 4 ≤ pos.fillsCount) :
    ((onAdd now beh bot alert s).err = none ∧
     (onAdd now beh bot alert s).state = s ∧
     (∀ e ∈ (onAdd now beh bot alert s).trace,
       e.isOrder = false ∧ e.isStoreMutation = false) ∧
     Effect.notify (bot.name ++ ": max fills reached for " ++ alert.symbol) ∈
       (onAdd now beh bot alert s).trace) ∧
    (getEntry (getStateKey bot.name alert.symbol) s.entryBlockStates = none →
     tfOrDefault alert.timeframe = "1h" →
     ((onOpen now beh bot alert s).err = none ∧
      (onOpen now beh bot alert s).state = s ∧
      (∀ e ∈ (onOpen now beh bot alert s).trace,
        e.isOrder = false ∧ e.isStoreMutation = false) ∧
      Effect.notify (bot.name ++ ": max fills reached for " ++ alert.symbol) ∈
        (onOpen now beh bot alert s).trace)) := by
  constructor
  · unfold onAdd
    simp [hpos, hge, Effect.isOrder, Effect.isStoreMutation]
  · intro hb htf
    unfold onOpen isEntryBlocked
    simp [hb, htf, hpos, hge, Effect.isOrder, Effect.isStoreMutation]

theorem C7_witness :
    (storeFindOpen sPosMax demoBot.name demoAlert1h.symbol = some demoPosMax ∧
     demoBot.cfg.maxFills.getD 4 ≤ demoPosMax.fillsCount) ∧
    ((onAdd 1000 okBeh demoBot demoAlert1h sPosMax).err = none ∧
     (onAdd 1000 okBeh demoBot demoAlert1h sPosMax).state = sPosMax ∧
     (∀ e ∈ (onAdd 1000 okBeh demoBot demoAlert1h sPosMax).trace,
       e.isOrder = false ∧ e.isStoreMutation = false) ∧
     Effect.notify ("b1" ++ ": max fills reached for " ++ "BTCUSDT") ∈
       (onAdd 1000 okBeh demoBot demoAlert1h sPosMax).trace) ∧
    (getEntry (getStateKey demoBot.name demoAlert1h.symbol) sPosMax.entryBlockStates = none →
     tfOrDefault demoAlert1h.timeframe = "1h" →
     ((onOpen 1000 okBeh demoBot demoAlert1h sPosMax).err = none ∧
      (onOpen 1000 okBeh demoBot demoAlert1h sPosMax).state = sPosMax ∧
      (∀ e ∈ (onOpen 1000 okBeh demoBot demoAlert1h sPosMax).trace,
        e.isOrder = false ∧ e.isStoreMutation = false) ∧
      Effect.notify ("b1" ++ ": max fills reached for " ++ "BTCUSDT") ∈
        (onOpen 1000 okBeh demoBot demoAlert1h sPosMax).trace)) :=
  ⟨⟨by decide, by decide⟩,
   (C7_max_fills_no_order 1000 okBeh demoBot demoAlert1h sPosMax demoPosMax
      (by decide) (by decide)).1,
   (C7_max_fills_no_order 1000 okBeh demoBot demoAlert1h sPosMax demoPosMax
      (by decide) (by decide)).2⟩

/-- C9: in `onOpen`, `onClose`, `onFixedShortSynchronization` and
`onLiveShortSynchronization`, an alert whose timeframe is absent or
empty behaves exactly (same result, state and effects) as one whose
timeframe is "1h": in particular such a `SmartOpen` passes the timeframe
guard and can open, and such a `SmartClose` takes the partial-close
path. -/
theorem C9_absent_timeframe_is_1h (now : Nat) (beh : ExchangeBeh) (bot : SBot)
    (sym : String) (price : ℚ) (s : StratState) (tf : Option String)
    (h : tf = none ∨ tf = some "") :
    onOpen now beh bot ⟨sym, price, tf⟩ s =
      onOpen now beh bot ⟨sym, price, some "1h"⟩ s ∧
    onClose now beh bot ⟨sym, price, tf⟩ s =
      onClose now beh bot ⟨sym, price, some "1h"⟩ s ∧
    onFixedShortSynchronization now bot ⟨sym, price, tf⟩ s =
      onFixedShortSynchronization now bot ⟨sym, price, some "1h"⟩ s ∧
    onLiveShortSynchronization now bot ⟨sym, price, tf⟩ s =
      onLiveShortSynchronization now bot ⟨sym, price, some "1h"⟩ s := by
  rcases h with h | h <;> subst h <;> exact ⟨rfl, rfl, rfl, rfl⟩

theorem C9_witness :
    ((none : Option String) = none ∨ (none : Option String) = some "") ∧
    (onOpen 1000 okBeh demoBot ⟨"BTCUSDT", 5, none⟩ s0 =
       onOpen 1000 okBeh demoBot ⟨"BTCUSDT", 5, some "1h"⟩ s0 ∧
     onClose 1000 okBeh demoBot ⟨"BTCUSDT", 5, none⟩ s0 =
       onClose 1000 okBeh demoBot ⟨"BTCUSDT", 5, some "1h"⟩ s0 ∧
     onFixedShortSynchronization 1000 demoBot ⟨"BTCUSDT", 5, none⟩ s0 =
       onFixedShortSynchronization 1000 demoBot ⟨"BTCUSDT", 5, some "1h"⟩ s0 ∧
     onLiveShortSynchronization 1000 demoBot ⟨"BTCUSDT", 5, none⟩ s0 =
       onLiveShortSynchronization 1000 demoBot ⟨"BTCUSDT", 5, some "1h"⟩ s0) :=
  ⟨Or.inl rfl,
   C9_absent_timeframe_is_1h 1000 okBeh demoBot "BTCUSDT" 5 s0 none (Or.inl rfl)⟩

/-- `getOrCreateState` touches only the partial-close map. -/
theorem getOrCreateState_store (now : Nat) (bn sym : String) (s : StratState) :
    ((getOrCreateState now bn sym s).2).store = s.store := by
  unfold getOrCreateState
  cases h : getEntry (getStateKey bn sym) s.partialCloseStates <;> simp [h]

/-- C2: a fixed-short or live-short synchronization signal at timeframe
"1h" blocks the (bot,symbol) key until exactly `now + 1h` (any other
timeframe: no transition); every `SmartOpen` while `now < blockedUntil`
is rejected with a notification, zero order placements and no store
mutation; a read at `now ≥ blockedUntil` treats the block as absent, and
a `SmartOpen` then proceeds to open normally. -/
theorem C2_entry_block_lifecycle :
    (∀ (now : Nat) (bot : SBot) (alert : SAlert) (s : StratState),
      alert.timeframe = some "1h" →
      (getEntry (getStateKey bot.name alert.symbol)
          (onFixedShortSynchronization now bot alert s).state.entryBlockStates =
        some ⟨alert.symbol, bot.name, now + 60 * 60 * 1000⟩ ∧
       getEntry (getStateKey bot.name alert.symbol)
          (onLiveShortSynchronization now bot alert s).state.entryBlockStates =
        some ⟨alert.symbol, bot.name, now + 60 * 60 * 1000⟩)) ∧
    (∀ (now : Nat) (bot : SBot) (alert : SAlert) (s : StratState) (t : String),
      alert.timeframe = some t → t ≠ "1h" → t ≠ "" →
      ((onFixedShortSynchronization now bot alert s).state = s ∧
       (onLiveShortSynchronization now bot alert s).state = s)) ∧
    (∀ (now : Nat) (beh : ExchangeBeh) (bot : SBot) (alert : SAlert)
       (s : StratState) (b : EntryBlockState),
      getEntry (getStateKey bot.name alert.symbol) s.entryBlockStates = some b →
      now < b.blockedUntil →
      ((onOpen now beh bot alert s).err = none ∧
       (∃ e ∈ (onOpen now beh bot alert s).trace, e.isNotify = true) ∧
       (∀ e ∈ (onOpen now beh bot alert s).trace,
         e.isOrder = false ∧ e.isStoreMutation = false))) ∧
    (∀ (now : Nat) (bn sym : String) (s : StratState) (b : EntryBlockState),
      getEntry (getStateKey bn sym) s.entryBlockStates = some b →
      b.blockedUntil ≤ now →
      (isEntryBlocked now bn sym s).1 = false) ∧
    (∀ (now : Nat) (beh : ExchangeBeh) (bot : SBot) (alert : SAlert)
       (s : StratState) (b : EntryBlockState),
      getEntry (getStateKey bot.name alert.symbol) s.entryBlockStates = some b →
      b.blockedUntil ≤ now →
      alert.timeframe = some "1h" →
      storeFindOpen s bot.name alert.symbol = none →
      bot.isAllowed (toBitgetSymbolId alert.symbol) = true →
      usdFalsy bot.baseUsd = false →
      beh.placeMarketOk = true →
      ((onOpen now beh bot alert s).err = none ∧
       Effect.placeMarket (toBitgetSymbolId alert.symbol) "buy"
           (bot.calcSizeFromUsd (toBitgetSymbolId alert.symbol) alert.price
             (bot.baseUsd.getD 0))
           (bot.name ++ "-open-" ++ toString now) ∈
         (onOpen now beh bot alert s).trace ∧
       storeFindOpen (onOpen now beh bot alert s).state bot.name alert.symbol =
         some ⟨s.nextId, 1, alert.price, bot.baseUsd.getD 0⟩)) := by
  refine ⟨?_, ?_, ?_, ?_, ?_⟩
  · intro now bot alert s ht
    unfold onFixedShortSynchronization onLiveShortSynchronization blockEntry
    simp [tfOrDefault, ht, getEntry_setEntry_self]
  · intro now bot alert s t ht h1 h2
    unfold onFixedShortSynchronization onLiveShortSynchronization
    simp [tfOrDefault, ht, h1, h2]
  · intro now beh bot alert s b hb hlt
    rw [onOpen_blocked now beh bot alert s b hb hlt]
    simp [Effect.isNotify, Effect.isOrder, Effect.isStoreMutation]
  · intro now bn sym s b hb hle
    unfold isEntryBlocked
    simp [hb, hle]
  · intro now beh bot alert s b hb hle ht hfind hallow husd hok
    unfold onOpen isEntryBlocked
    simp only [hb, hle, if_pos, if_neg]
    simp [tfOrDefault, ht, storeFindOpen] at hfind ⊢
    simp [hfind, hallow, husd, hok, storeFindOpen, storeOpenOp,
          getOrCreateState_store, getEntry_setEntry_self]

theorem C2_witness :
    (demoAlert1h.timeframe = some "1h" ∧
     getEntry (getStateKey demoBot.name demoAlert1h.symbol)
        (onFixedShortSynchronization 1000 demoBot demoAlert1h s0).state.entryBlockStates =
       some ⟨"BTCUSDT", "b1", 1000 + 60 * 60 * 1000⟩) ∧
    ((onFixedShortSynchronization 1000 demoBot demoAlert4h s0).state = s0) ∧
    ((onOpen 2000 okBeh demoBot demoAlert1h sBlocked).err = none ∧
     (∀ e ∈ (onOpen 2000 okBeh demoBot demoAlert1h sBlocked).trace,
       e.isOrder = false ∧ e.isStoreMutation = false)) ∧
    ((isEntryBlocked 4000000 "b1" "BTCUSDT" sBlocked).1 = false) ∧
    ((onOpen 4000000 okBeh demoBot demoAlert1h sBlocked).err = none ∧
     storeFindOpen (onOpen 4000000 okBeh demoBot demoAlert1h sBlocked).state
         demoBot.name demoAlert1h.symbol =
       some ⟨sBlocked.nextId, 1, demoAlert1h.price, demoBot.baseUsd.getD 0⟩) :=
  ⟨⟨rfl, (C2_entry_block_lifecycle.1 1000 demoBot demoAlert1h s0 rfl).1⟩,
   (C2_entry_block_lifecycle.2.1 1000 demoBot demoAlert4h s0 "4h" rfl
      (by decide) (by decide)).1,
   ⟨(C2_entry_block_lifecycle.2.2.1 2000 okBeh demoBot demoAlert1h sBlocked
       demoBlock (by decide) (by decide)).1,
    (C2_entry_block_lifecycle.2.2.1 2000 okBeh demoBot demoAlert1h sBlocked
       demoBlock (by decide) (by decide)).2.2⟩,
   C2_entry_block_lifecycle.2.2.2.1 4000000 "b1" "BTCUSDT" sBlocked demoBlock
     (by decide) (by decide),
   ⟨(C2_entry_block_lifecycle.2.2.2.2 4000000 okBeh demoBot demoAlert1h sBlocked
       demoBlock (by decide) (by decide) rfl (by decide) (by decide) (by decide)
       (by decide)).1,
    (C2_entry_block_lifecycle.2.2.2.2 4000000 okBeh demoBot demoAlert1h sBlocked
       demoBlock (by decide) (by decide) rfl (by decide) (by decide) (by decide)
       (by decide)).2.2⟩⟩

/-- C1 as stated is false in its 2nd-signal clause: the source formats
the token amount with `toFixed(8)` before placing the sell order, so for
`amountUsd = 1`, `avgEntryPrice = 3` the placed size is the 8-decimal
rounding 0.16666667, not exactly (amountUsd × 0.5) / avgEntryPrice =
1/6. -/
theorem C1_counterexample :
    storeFindOpen sPos1 demoBot.name demoAlert1h.symbol = some demoPos ∧
    getEntry (getStateKey demoBot.name demoAlert1h.symbol)
      sPos1.partialCloseStates =
      some ⟨"BTCUSDT", "b1", 1, 500⟩ ∧
    (onClose 2000 okBeh demoBot demoAlert1h sPos1).trace.filter Effect.isOrder =
      [Effect.placeMarket "BTCUSDT" "sell"
        (toFixed8 (demoPos.amountUsd * (1 / 2) / demoPos.avgEntryPrice))
        "b1-partial-close-2000"] ∧
    toFixed8 (demoPos.amountUsd * (1 / 2) / demoPos.avgEntryPrice) ≠
      demoPos.amountUsd * (1 / 2) / demoPos.avgEntryPrice := by
  refine ⟨by decide, by decide, ?_, ?_⟩
  · rfl
  · have h6 : (demoPos.amountUsd * (1 / 2) / demoPos.avgEntryPrice : ℚ) = 1 / 6 := by
      norm_num [demoPos]
    rw [h6]
    unfold toFixed8
    have hfl : ⌊(1 / 6 : ℚ) * 100000000 + 1 / 2⌋ = 16666667 := by
      rw [Int.floor_eq_iff]
      constructor <;> norm_num
    rw [hfl]
    norm_num

/-- C1 amended: for every open position with fresh partial-close state,
three consecutive `SmartClose` alerts at timeframe "1h" for the same
(bot,symbol) key drive the automaton as: the 1st performs no trading
action and moves closeCount 0 → 1; the 2nd places a sell order for
(amountUsd × 0.5) / avgEntryPrice tokens rounded to 8 decimal places
(`toFixed(8)`) and moves closeCount 1 → 2, leaving the position open;
the 3rd fully closes via flash-close plus store close and clears the
partial-close state. -/
theorem C1_partial_close_sequence (bot : SBot) (sym : String) (p1 p2 p3 : ℚ)
    (now1 now2 now3 : Nat) (beh : ExchangeBeh) (s : StratState) (pos : Position)
    (hfind : storeFindOpen s bot.name sym = some pos)
    (hfresh : getEntry (getStateKey bot.name sym) s.partialCloseStates = none)
    (hpm : beh.placeMarketOk = true) (hfc : beh.flashCloseOk = true) :
    ((onClose now1 beh bot ⟨sym, p1, some "1h"⟩ s).err = none ∧
     (∀ e ∈ (onClose now1 beh bot ⟨sym, p1, some "1h"⟩ s).trace,
       e.isOrder = false ∧ e.isStoreMutation = false) ∧
     getEntry (getStateKey bot.name sym)
       (onClose now1 beh bot ⟨sym, p1, some "1h"⟩ s).state.partialCloseStates =
       some ⟨sym, bot.name, 1, now1⟩ ∧
     (onClose now1 beh bot ⟨sym, p1, some "1h"⟩ s).state.store = s.store) ∧
    ((onClose now2 beh bot ⟨sym, p2, some "1h"⟩
        (onClose now1 beh bot ⟨sym, p1, some "1h"⟩ s).state).err = none ∧
     (onClose now2 beh bot ⟨sym, p2, some "1h"⟩
        (onClose now1 beh bot ⟨sym, p1, some "1h"⟩ s).state).trace.filter
         Effect.isOrder =
       [Effect.placeMarket (toBitgetSymbolId sym) "sell"
         (toFixed8 (pos.amountUsd * (1 / 2) / pos.avgEntryPrice))
         (bot.name ++ "-partial-close-" ++ toString now2)] ∧
     (∀ e ∈ (onClose now2 beh bot ⟨sym, p2, some "1h"⟩
        (onClose now1 beh bot ⟨sym, p1, some "1h"⟩ s).state).trace,
       e.isStoreMutation = false) ∧
     getEntry (getStateKey bot.name sym)
       (onClose now2 beh bot ⟨sym, p2, some "1h"⟩
         (onClose now1 beh bot ⟨sym, p1, some "1h"⟩ s).state).state.partialCloseStates =
       some ⟨sym, bot.name, 2, now2⟩ ∧
     (onClose now2 beh bot ⟨sym, p2, some "1h"⟩
       (onClose now1 beh bot ⟨sym, p1, some "1h"⟩ s).state).state.store = s.store) ∧
    ((onClose now3 beh bot ⟨sym, p3, some "1h"⟩
        (onClose now2 beh bot ⟨sym, p2, some "1h"⟩
          (onClose now1 beh bot ⟨sym, p1, some "1h"⟩ s).state).state).err = none ∧
     Effect.flashClose sym "long" ∈
       (onClose now3 beh bot ⟨sym, p3, some "1h"⟩
         (onClose now2 beh bot ⟨sym, p2, some "1h"⟩
           (onClose now1 beh bot ⟨sym, p1, some "1h"⟩ s).state).state).trace ∧
     Effect.storeClose bot.name sym p3 ∈
       (onClose now3 beh bot ⟨sym, p3, some "1h"⟩
         (onClose now2 beh bot ⟨sym, p2, some "1h"⟩
           (onClose now1 beh bot ⟨sym, p1, some "1h"⟩ s).state).state).trace ∧
     getEntry (getStateKey bot.name sym)
       (onClose now3 beh bot ⟨sym, p3, some "1h"⟩
         (onClose now2 beh bot ⟨sym, p2, some "1h"⟩
           (onClose now1 beh bot ⟨sym, p1, some "1h"⟩ s).state).state).state.partialCloseStates =
       none ∧
     (onClose now3 beh bot ⟨sym, p3, some "1h"⟩
       (onClose now2 beh bot ⟨sym, p2, some "1h"⟩
         (onClose now1 beh bot ⟨sym, p1, some "1h"⟩ s).state).state).state.store =
       delEntry (bot.name, sym) s.store) := by
  have hs1 : (onClose now1 beh bot ⟨sym, p1, some "1h"⟩ s).state = { s with partialCloseStates := setEntry (getStateKey bot.name sym) ⟨sym, bot.name, 1, now1⟩ s.partialCloseStates } := by
    unfold onClose getOrCreateState setPartialState
    simp [hfind, hfresh, tfOrDefault, setEntry_setEntry]
  have hs2 : (onClose now2 beh bot ⟨sym, p2, some "1h"⟩ (onClose now1 beh bot ⟨sym, p1, some "1h"⟩ s).state).state = { s with partialCloseStates := setEntry (getStateKey bot.name sym) ⟨sym, bot.name, 2, now2⟩ s.partialCloseStates } := by
    rw [hs1]
    unfold onClose getOrCreateState setPartialState
    simp [storeFindOpen] at hfind
    simp [storeFindOpen, hfind, hfresh, tfOrDefault, getEntry_setEntry_self,
          setEntry_setEntry, hpm]
  refine ⟨⟨?_, ?_, ?_, ?_⟩, ⟨?_, ?_, ?_, ?_, ?_⟩, ⟨?_, ?_, ?_, ?_, ?_⟩⟩
  · unfold onClose getOrCreateState
    simp [hfind, hfresh, tfOrDefault]
  · unfold onClose getOrCreateState setPartialState
    simp [hfind, hfresh, tfOrDefault, Effect.isOrder, Effect.isStoreMutation]
  · rw [hs1]
    simp [getEntry_setEntry_self]
  · rw [hs1]
  · rw [hs1]
    unfold onClose getOrCreateState
    simp [storeFindOpen] at hfind
    simp [storeFindOpen, hfind, hfresh, tfOrDefault, getEntry_setEntry_self, hpm]
  · rw [hs1]
    unfold onClose getOrCreateState setPartialState
    simp [storeFindOpen] at hfind
    simp [storeFindOpen, hfind, hfresh, tfOrDefault, getEntry_setEntry_self, hpm,
          Effect.isOrder, List.filter]
  · rw [hs1]
    unfold onClose getOrCreateState setPartialState
    simp [storeFindOpen] at hfind
    simp [storeFindOpen, hfind, hfresh, tfOrDefault, getEntry_setEntry_self, hpm,
          Effect.isStoreMutation]
  · rw [hs2]
    simp [getEntry_setEntry_self]
  · rw [hs2]
  · rw [hs2]
    unfold onClose getOrCreateState
    simp [storeFindOpen] at hfind
    simp [storeFindOpen, hfind, hfresh, tfOrDefault, getEntry_setEntry_self, hfc]
  · rw [hs2]
    unfold onClose getOrCreateState
    simp [storeFindOpen] at hfind
    simp [storeFindOpen, hfind, hfresh, tfOrDefault, getEntry_setEntry_self, hfc]
  · rw [hs2]
    unfold onClose getOrCreateState
    simp [storeFindOpen] at hfind
    simp [storeFindOpen, hfind, hfresh, tfOrDefault, getEntry_setEntry_self, hfc]
  · rw [hs2]
    unfold onClose getOrCreateState clearState storeCloseOp
    simp [storeFindOpen] at hfind
    simp [storeFindOpen, hfind, hfresh, tfOrDefault, getEntry_setEntry_self, hfc,
          delEntry_setEntry_of_getEntry_none, hfresh]
  · rw [hs2]
    unfold onClose getOrCreateState clearState storeCloseOp
    simp [storeFindOpen] at hfind
    simp [storeFindOpen, hfind, hfresh, tfOrDefault, getEntry_setEntry_self, hfc]

theorem C1_witness :
    (storeFindOpen sPos demoBot.name "BTCUSDT" = some demoPos ∧
     getEntry (getStateKey demoBot.name "BTCUSDT") sPos.partialCloseStates = none) ∧
    getEntry (getStateKey demoBot.name "BTCUSDT")
      (onClose 1000 okBeh demoBot ⟨"BTCUSDT", 5, some "1h"⟩ sPos).state.partialCloseStates =
      some ⟨"BTCUSDT", demoBot.name, 1, 1000⟩ ∧
    (onClose 2000 okBeh demoBot ⟨"BTCUSDT", 5, some "1h"⟩
        (onClose 1000 okBeh demoBot ⟨"BTCUSDT", 5, some "1h"⟩ sPos).state).trace.filter
      Effect.isOrder =
      [Effect.placeMarket (toBitgetSymbolId "BTCUSDT") "sell"
        (toFixed8 (demoPos.amountUsd * (1 / 2) / demoPos.avgEntryPrice))
        (demoBot.name ++ "-partial-close-" ++ toString 2000)] ∧
    getEntry (getStateKey demoBot.name "BTCUSDT")
      (onClose 3000 okBeh demoBot ⟨"BTCUSDT", 5, some "1h"⟩
        (onClose 2000 okBeh demoBot ⟨"BTCUSDT", 5, some "1h"⟩
          (onClose 1000 okBeh demoBot ⟨"BTCUSDT", 5, some "1h"⟩ sPos).state).state).state.partialCloseStates =
      none :=
  ⟨⟨by decide, by decide⟩,
   (C1_partial_close_sequence demoBot "BTCUSDT" 5 5 5 1000 2000 3000 okBeh sPos
      demoPos (by decide) (by decide) rfl rfl).1.2.2.1,
   (C1_partial_close_sequence demoBot "BTCUSDT" 5 5 5 1000 2000 3000 okBeh sPos
      demoPos (by decide) (by decide) rfl rfl).2.1.2.1,
   (C1_partial_close_sequence demoBot "BTCUSDT" 5 5 5 1000 2000 3000 okBeh sPos
      demoPos (by decide) (by decide) rfl rfl).2.2.2.2.2.1⟩

/-- Domination discriminators are not smartvol discriminators. -/
theorem domination_not_smartvol {ty : String} (h : ty ∈ dominationTypes) :
    ty ∉ smartVolTypes := by
  simp only [dominationTypes, List.mem_cons, List.not_mem_nil, or_false] at h
  rcases h with h | h | h | h <;> subst h <;> decide

/-- C4: classification fails with a validation error when the
discriminator is missing or unrecognized; for every smartvol type it
fails when symbol or price is missing (`VolumeUp` additionally when
volume or timeframe is missing); for every domination type it fails when
symbol or price is missing; otherwise it returns a typed alert of the
matching kind.  `toAlert` is a pure function, so classification has no
side effects by construction. -/
theorem C4_classifier_total_validation :
    (∀ p : Payload, p.alertName = none →
      toAlert p = .error "Only SmartVol and Domination alerts are supported") ∧
    (∀ (p : Payload) (ty : String), p.alertName = some ty →
      ty ∉ smartVolTypes → ty ∉ dominationTypes →
      toAlert p = .error ("Unknown alert type: " ++ ty)) ∧
    (∀ (p : Payload) (ty : String), p.alertName = some ty →
      ty ∈ smartVolTypes →
      (strFalsy p.symbol = true ∨ p.price = none) →
      toAlert p = .error "symbol and price are required") ∧
    (∀ p : Payload, p.alertName = some "VolumeUp" →
      strFalsy p.symbol = false → p.price ≠ none →
      (p.volume = none ∨ strFalsy p.timeframe = true) →
      ∃ msg, toAlert p = .error msg) ∧
    (∀ (p : Payload) (ty : String), p.alertName = some ty →
      ty ∈ dominationTypes →
      (strFalsy p.symbol = true ∨ p.price = none) →
      toAlert p = .error "symbol and price are required") ∧
    (∀ (p : Payload) (ty sym pr : String), p.alertName = some ty →
      ty ∈ smartVolTypes → ty ≠ "VolumeUp" →
      p.symbol = some sym → sym ≠ "" → p.price = some pr →
      toAlert p = .ok { kind := "smartvol", type := ty, symbol := sym,
                        price := pr, timeframe := p.timeframe, volume := none }) ∧
    (∀ (p : Payload) (sym pr tf : String) (v : ℚ),
      p.alertName = some "VolumeUp" →
      p.symbol = some sym → sym ≠ "" → p.price = some pr →
      p.volume = some v → p.timeframe = some tf → tf ≠ "" →
      toAlert p = .ok { kind := "smartvol", type := "VolumeUp", symbol := sym,
                        price := pr, timeframe := some tf, volume := some v }) ∧
    (∀ (p : Payload) (ty sym pr : String), p.alertName = some ty →
      ty ∈ dominationTypes →
      p.symbol = some sym → sym ≠ "" → p.price = some pr →
      toAlert p = .ok { kind := "domination", type := ty, symbol := sym,
                        price := pr, timeframe := p.timeframe, volume := none }) := by
  refine ⟨?_, ?_, ?_, ?_, ?_, ?_, ?_, ?_⟩
  · intro p h
    unfold toAlert
    simp [h]
  · intro p ty h hsv hdom
    unfold toAlert
    simp [h, hsv, hdom]
  · intro p ty h hsv hbad
    unfold toAlert
    rcases hbad with hb | hb <;> simp [h, hsv, hb]
  · intro p h hsym hpr hbad
    unfold toAlert
    rcases hbad with hb | hb
    · exact ⟨"volume is required for VolumeUp alerts",
        by simp [h, hsym, hpr, hb, smartVolTypes]⟩
    · cases hvol : p.volume with
      | none => exact ⟨"volume is required for VolumeUp alerts",
          by simp [h, hsym, hpr, hvol, smartVolTypes]⟩
      | some v => exact ⟨"timeframe is required for VolumeUp alerts",
          by simp [h, hsym, hpr, hb, hvol, smartVolTypes]⟩
  · intro p ty h hdom hbad
    have hsv := domination_not_smartvol hdom
    unfold toAlert
    rcases hbad with hb | hb <;> simp [h, hsv, hdom, hb]
  · intro p ty sym pr h hsv hne hsym hsym' hpr
    unfold toAlert
    simp [h, hsv, hsym, hsym', hpr, strFalsy, hne]
  · intro p sym pr tf v h hsym hsym' hpr hvol htf htf'
    unfold toAlert
    simp [h, hsym, hsym', hpr, hvol, htf, htf', strFalsy, smartVolTypes]
  · intro p ty sym pr h hdom hsym hsym' hpr
    have hsv := domination_not_smartvol hdom
    unfold toAlert
    simp [h, hsv, hdom, hsym, hsym', hpr, strFalsy]

theorem C4_witness :
    (toAlert ⟨none, some "BTCUSDT", some "5", none, none⟩ =
      .error "Only SmartVol and Domination alerts are supported") ∧
    (toAlert ⟨some "Bogus", some "BTCUSDT", some "5", none, none⟩ =
      .error ("Unknown alert type: " ++ "Bogus")) ∧
    (toAlert ⟨some "SmartOpen", none, some "5", none, none⟩ =
      .error "symbol and price are required") ∧
    (∃ msg, toAlert ⟨some "VolumeUp", some "BTCUSDT", some "5", none, none⟩ =
      .error msg) ∧
    (toAlert ⟨some "Buyer domination", none, some "5", none, none⟩ =
      .error "symbol and price are required") ∧
    (toAlert ⟨some "SmartOpen", some "BTCUSDT", some "5", some "1h", none⟩ =
      .ok { kind := "smartvol", type := "SmartOpen", symbol := "BTCUSDT",
            price := "5", timeframe := some "1h", volume := none }) ∧
    (toAlert ⟨some "VolumeUp", some "BTCUSDT", some "5", some "1h", some 2⟩ =
      .ok { kind := "smartvol", type := "VolumeUp", symbol := "BTCUSDT",
            price := "5", timeframe := some "1h", volume := some 2 }) ∧
    (toAlert ⟨some "Buyer domination", some "BTCUSDT", some "5", none, none⟩ =
      .ok { kind := "domination", type := "Buyer domination",
            symbol := "BTCUSDT", price := "5", timeframe := none,
            volume := none }) :=
  ⟨C4_classifier_total_validation.1 _ rfl,
   C4_classifier_total_validation.2.1 _ "Bogus" rfl (by decide) (by decide),
   C4_classifier_total_validation.2.2.1 _ "SmartOpen" rfl (by decide)
     (Or.inl rfl),
   C4_classifier_total_validation.2.2.2.1 _ rfl rfl (by decide) (Or.inl rfl),
   C4_classifier_total_validation.2.2.2.2.1 _ "Buyer domination" rfl (by decide)
     (Or.inl rfl),
   C4_classifier_total_validation.2.2.2.2.2.1 _ "SmartOpen" "BTCUSDT" "5" rfl
     (by decide) (by decide) rfl (by decide) rfl,
   C4_classifier_total_validation.2.2.2.2.2.2.1 _ "BTCUSDT" "5" "1h" 2 rfl rfl
     (by decide) rfl rfl rfl (by decide),
   C4_classifier_total_validation.2.2.2.2.2.2.2 _ "Buyer domination" "BTCUSDT"
     "5" rfl (by decide) rfl (by decide) rfl⟩

/-- Project the bot name out of an `invoked` event. -/
def invokedName : REvent → Option String
  | .invoked n => some n
  | _ => none

/-- `processDominationAlert` itself never emits an `invoked` event. -/
theorem processDominationAlert_no_invoked (b : RBot) (alert : ClassifiedAlert)
    (evs : List REvent) (h : processDominationAlert b alert = .ok evs) :
    evs.filterMap invokedName = [] := by
  unfold processDominationAlert domDispatch at h
  split_ifs at h <;>
    first
      | exact (Except.noConfusion h)
      | (cases h; simp [invokedName])

/-- Every bot passed to the domination loop is reached exactly once, in
order, regardless of which handlers throw. -/
theorem domLoop_invoked (alert : ClassifiedAlert) (l : List RBot) :
    (domLoop alert l).filterMap invokedName = l.map RBot.name := by
  induction l with
  | nil => rfl
  | cons b rest ih =>
    cases hpd : processDominationAlert b alert with
    | ok evs =>
      simp [domLoop, hpd, invokedName, ih,
            processDominationAlert_no_invoked b alert evs hpd]
    | error e => simp [domLoop, hpd, invokedName, ih]

/-- Demo router bots: `rbotA` throws in `process`, `rbotB` succeeds,
`rbotD` is a domination bot whose handler throws. -/
def rbotA : RBot :=
  { name := "a", symbolFilter := [], strategy := "smartvol",
    processOk := false, domOk := true }

def rbotB : RBot :=
  { name := "b", symbolFilter := [], strategy := "smartvol",
    processOk := true, domOk := true }

def rbotD : RBot :=
  { name := "d", symbolFilter := [], strategy := "domination",
    processOk := true, domOk := false }

def demoCA : ClassifiedAlert :=
  { kind := "smartvol", type := "SmartOpen", symbol := "BTCUSDT",
    price := "5", timeframe := some "1h", volume := none }

/-- C3: in both dispatch pathways every eligible bot is reached in
registry order no matter which bots' handlers throw (the `invoked`
projection of the event trace equals the filtered registry, for every
assignment of per-bot success flags); a failing bot is logged; and after
successful classification the router returns normally — per-bot
exceptions never propagate to its caller. -/
theorem C3_per_bot_failure_isolation :
    (∀ (alert : ClassifiedAlert) (bots : List RBot),
      (fanOut alert bots).filterMap invokedName =
        (bots.filter fun b => passesFilter b alert.symbol).map RBot.name) ∧
    (∀ (alert : ClassifiedAlert) (bots : List RBot) (b : RBot),
      b ∈ bots → passesFilter b alert.symbol = true → b.processOk = false →
      REvent.warned (b.name ++ " failed") ∈ fanOut alert bots) ∧
    (∀ (alert : ClassifiedAlert) (bots : List RBot),
      (handleDominationAlert bots alert).filterMap invokedName =
        (bots.filter fun b => b.strategy = "domination").map RBot.name) ∧
    (∀ (bots : List RBot) (p : Payload) (a : ClassifiedAlert),
      toAlert p = .ok a → ∃ evs, routerHandle bots p = .ok evs) := by
  refine ⟨?_, ?_, ?_, ?_⟩
  · intro alert bots
    induction bots with
    | nil => rfl
    | cons b rest ih =>
      by_cases hp : passesFilter b alert.symbol
      · cases hok : b.processOk <;> simp [fanOut, hp, hok, invokedName, ih]
      · simp [fanOut, hp, ih]
  · intro alert bots b hmem hp hok
    induction bots with
    | nil => simp at hmem
    | cons c rest ih =>
      rcases List.mem_cons.mp hmem with rfl | hmem'
      · simp [fanOut, hp, hok]
      · have := ih hmem'
        by_cases hpc : passesFilter c alert.symbol <;>
          cases hokc : c.processOk <;>
          simp [fanOut, hpc, hokc] <;> tauto
  · intro alert bots
    unfold handleDominationAlert
    by_cases he : (bots.filter fun b => b.strategy = "domination").isEmpty
    · rw [List.isEmpty_iff] at he
      simp [he, invokedName]
    · simp [he, domLoop_invoked]
  · intro bots p a h
    refine ⟨if a.kind = "domination" then handleDominationAlert bots a
            else fanOut a bots, ?_⟩
    unfold routerHandle
    rw [h]
    by_cases hk : a.kind = "domination" <;>
      simp [hk, Bind.bind, Except.bind, Except.pure, Pure.pure]

theorem C3_witness :
    ((fanOut demoCA [rbotA, rbotB]).filterMap invokedName =
      ([rbotA, rbotB].filter fun b => passesFilter b demoCA.symbol).map RBot.name) ∧
    (REvent.warned (rbotA.name ++ " failed") ∈ fanOut demoCA [rbotA, rbotB]) ∧
    ((handleDominationAlert [rbotA, rbotD] demoCA).filterMap invokedName =
      ([rbotA, rbotD].filter fun b => b.strategy = "domination").map RBot.name) ∧
    (∃ evs, routerHandle [rbotA, rbotB]
      ⟨some "SmartOpen", some "BTCUSDT", some "5", some "1h", none⟩ = .ok evs) :=
  ⟨C3_per_bot_failure_isolation.1 demoCA [rbotA, rbotB],
   C3_per_bot_failure_isolation.2.1 demoCA [rbotA, rbotB] rbotA
     (by decide) (by decide) (by decide),
   C3_per_bot_failure_isolation.2.2.1 demoCA [rbotA, rbotD],
   C3_per_bot_failure_isolation.2.2.2 [rbotA, rbotB]
     ⟨some "SmartOpen", some "BTCUSDT", some "5", some "1h", none⟩ demoCA
     rfl⟩

/-- C5: in every trading transition of the strategy (add, 4h close,
second partial close, final close, big close) the exchange order call
precedes any position-store mutation in the effect trace; and whenever a
handler throws (which is exactly when an exchange call fails), no store
mutation has occurred, no state was changed, and the exception
propagates out of the handler (`err = some _`). -/
theorem C5_order_before_store_mutation :
    (∀ (now : Nat) (beh : ExchangeBeh) (bot : SBot) (alert : SAlert)
       (s : StratState),
      noStoreMutationBeforeOrder (onAdd now beh bot alert s).trace = true) ∧
    (∀ (now : Nat) (beh : ExchangeBeh) (bot : SBot) (alert : SAlert)
       (s : StratState),
      noStoreMutationBeforeOrder (onClose now beh bot alert s).trace = true) ∧
    (∀ (now : Nat) (beh : ExchangeBeh) (bot : SBot) (alert : SAlert)
       (s : StratState),
      noStoreMutationBeforeOrder (onBigClose now beh bot alert s).trace = true) ∧
    (∀ (now : Nat) (beh : ExchangeBeh) (bot : SBot) (alert : SAlert)
       (s : StratState),
      (onAdd now beh bot alert s).err.isSome = true →
      ((onAdd now beh bot alert s).state = s ∧
       (onAdd now beh bot alert s).trace.filter Effect.isStoreMutation = [])) ∧
    (∀ (now : Nat) (beh : ExchangeBeh) (bot : SBot) (alert : SAlert)
       (s : StratState),
      (onClose now beh bot alert s).err.isSome = true →
      ((onClose now beh bot alert s).state = s ∧
       (onClose now beh bot alert s).trace.filter Effect.isStoreMutation = [])) ∧
    (∀ (now : Nat) (beh : ExchangeBeh) (bot : SBot) (alert : SAlert)
       (s : StratState),
      (onBigClose now beh bot alert s).err.isSome = true →
      ((onBigClose now beh bot alert s).state = s ∧
       (onBigClose now beh bot alert s).trace.filter Effect.isStoreMutation = [])) ∧
    (∀ (now : Nat) (beh : ExchangeBeh) (bot : SBot) (alert : SAlert)
       (s : StratState) (pos : Position),
      storeFindOpen s bot.name alert.symbol = some pos →
      beh.flashCloseOk = false →
      (onBigClose now beh bot alert s).err = some "flashClose failed") ∧
    (∀ (now : Nat) (beh : ExchangeBeh) (bot : SBot) (alert : SAlert)
       (s : StratState) (pos : Position),
      storeFindOpen s bot.name alert.symbol = some pos →
      pos.fillsCount < bot.cfg.maxFills.getD 4 →
      usdFalsy bot.addUsd = false →
      beh.placeMarketOk = false →
      (onAdd now beh bot alert s).err = some "placeMarket failed") := by
  refine ⟨?_, ?_, ?_, ?_, ?_, ?_, ?_, ?_⟩
  · intro now beh bot alert s
    unfold onAdd
    cases hfo : storeFindOpen s bot.name alert.symbol <;>
      simp only [hfo] <;> (try split_ifs) <;>
      simp [noStoreMutationBeforeOrder, Effect.isStoreMutation, Effect.isOrder]
  · intro now beh bot alert s
    unfold onClose getOrCreateState
    cases hfo : storeFindOpen s bot.name alert.symbol <;> simp only [hfo]
    · simp [noStoreMutationBeforeOrder, Effect.isStoreMutation, Effect.isOrder]
    · cases hg : getEntry (getStateKey bot.name alert.symbol) s.partialCloseStates <;>
        simp only [hg] <;> split_ifs <;>
        simp [noStoreMutationBeforeOrder, Effect.isStoreMutation, Effect.isOrder]
  · intro now beh bot alert s
    unfold onBigClose
    cases hfo : storeFindOpen s bot.name alert.symbol <;>
      simp only [hfo] <;> (try split_ifs) <;>
      simp [noStoreMutationBeforeOrder, Effect.isStoreMutation, Effect.isOrder]
  · intro now beh bot alert s
    unfold onAdd
    cases hfo : storeFindOpen s bot.name alert.symbol <;>
      simp only [hfo] <;> (try split_ifs) <;>
      simp [Effect.isStoreMutation]
  · intro now beh bot alert s
    unfold onClose getOrCreateState
    cases hfo : storeFindOpen s bot.name alert.symbol <;> simp only [hfo]
    · simp
    · cases hg : getEntry (getStateKey bot.name alert.symbol) s.partialCloseStates <;>
        simp only [hg] <;> split_ifs <;>
        simp [Effect.isStoreMutation]
  · intro now beh bot alert s
    unfold onBigClose
    cases hfo : storeFindOpen s bot.name alert.symbol <;>
      simp only [hfo] <;> (try split_ifs) <;>
      simp [Effect.isStoreMutation]
  · intro now beh bot alert s pos hfo hfc
    unfold onBigClose
    simp [hfo, hfc]
  · intro now beh bot alert s pos hfo hlt husd hpm
    unfold onAdd
    simp [hfo, Nat.not_le.mpr hlt, husd, hpm]

theorem C5_witness :
    noStoreMutationBeforeOrder (onAdd 1000 okBeh demoBot demoAlert1h sPos).trace = true ∧
    noStoreMutationBeforeOrder (onClose 1000 okBeh demoBot demoAlert4h sPos).trace = true ∧
    noStoreMutationBeforeOrder (onBigClose 1000 okBeh demoBot demoAlert1h sPos).trace = true ∧
    ((onAdd 1000 badBeh demoBot demoAlert1h sPos).state = sPos ∧
     (onAdd 1000 badBeh demoBot demoAlert1h sPos).trace.filter Effect.isStoreMutation = []) ∧
    ((onClose 1000 badBeh demoBot demoAlert4h sPos).state = sPos ∧
     (onClose 1000 badBeh demoBot demoAlert4h sPos).trace.filter Effect.isStoreMutation = []) ∧
    ((onBigClose 1000 badBeh demoBot demoAlert1h sPos).state = sPos ∧
     (onBigClose 1000 badBeh demoBot demoAlert1h sPos).trace.filter Effect.isStoreMutation = []) ∧
    (onBigClose 1000 badBeh demoBot demoAlert1h sPos).err = some "flashClose failed" ∧
    (onAdd 1000 badBeh demoBot demoAlert1h sPos).err = some "placeMarket failed" :=
  ⟨C5_order_before_store_mutation.1 1000 okBeh demoBot demoAlert1h sPos,
   C5_order_before_store_mutation.2.1 1000 okBeh demoBot demoAlert4h sPos,
   C5_order_before_store_mutation.2.2.1 1000 okBeh demoBot demoAlert1h sPos,
   C5_order_before_store_mutation.2.2.2.1 1000 badBeh demoBot demoAlert1h sPos
     (by decide),
   C5_order_before_store_mutation.2.2.2.2.1 1000 badBeh demoBot demoAlert4h sPos
     (by decide),
   C5_order_before_store_mutation.2.2.2.2.2.1 1000 badBeh demoBot demoAlert1h sPos
     (by decide),
   C5_order_before_store_mutation.2.2.2.2.2.2.1 1000 badBeh demoBot demoAlert1h
     sPos demoPos (by decide) rfl,
   C5_order_before_store_mutation.2.2.2.2.2.2.2 1000 badBeh demoBot demoAlert1h
     sPos demoPos (by decide) (by decide) (by decide) rfl⟩

end DeviceControll
